import Mathlib

/-!
Shallow embedding of the Eido autonomous pipeline core:
the MVP state machine (`backend/app/models/mvp.py`), the pipeline
orchestrator and stage executor (`backend/app/services/pipeline.py`),
the crash-recovery scanner (`resume_incomplete_pipelines`), and the
LLM router's cost accounting and retry bookkeeping
(`backend/app/services/ai_runtime/llm_router.py`).

Timestamps are modelled as natural numbers (milliseconds); monetary
amounts as rationals; the database session semantics are modelled by
explicit record updates, with the convention that changes visible on a
raised-exception path are exactly those committed before the raise.
-/

namespace Eido

/-- The `MVPState` enum of `models/mvp.py`. -/
inductive MVPState where
  | CREATED
  | IDEATING
  | ARCHITECTING
  | BUILDING
  | BUILD_FAILED
  | DEPLOYING
  | DEPLOY_FAILED
  | TOKENIZING
  | COMPLETED
  | FAILED
deriving DecidableEq, Repr

/-- The `VALID_TRANSITIONS` dict of `models/mvp.py`. -/
def VALID_TRANSITIONS : MVPState → List MVPState
  | .CREATED => [.IDEATING]
  | .IDEATING => [.ARCHITECTING, .FAILED]
  | .ARCHITECTING => [.BUILDING, .FAILED]
  | .BUILDING => [.DEPLOYING, .BUILD_FAILED]
  | .BUILD_FAILED => [.BUILDING, .FAILED]
  | .DEPLOYING => [.TOKENIZING, .DEPLOY_FAILED]
  | .DEPLOY_FAILED => [.DEPLOYING, .FAILED]
  | .TOKENIZING => [.COMPLETED, .FAILED]
  | .COMPLETED => []
  | .FAILED => []

/-- `is_valid_transition(from_state, to_state)` of `models/mvp.py`. -/
def is_valid_transition (from_state to_state : MVPState) : Bool :=
  (VALID_TRANSITIONS from_state).contains to_state

/-- `TERMINAL_STATES` of `models/mvp.py`. -/
def TERMINAL_STATES : List MVPState := [.COMPLETED, .FAILED]

/-- `NON_TERMINAL_STATES` of `models/mvp.py`. -/
def NON_TERMINAL_STATES : List MVPState :=
  [.CREATED, .IDEATING, .ARCHITECTING, .BUILDING, .BUILD_FAILED,
   .DEPLOYING, .DEPLOY_FAILED, .TOKENIZING]

/-- `is_terminal_state(state)` of `models/mvp.py`. -/
def is_terminal_state (state : MVPState) : Bool :=
  TERMINAL_STATES.contains state

/-- `is_non_terminal_state(state)` of `models/mvp.py`. -/
def is_non_terminal_state (state : MVPState) : Bool :=
  NON_TERMINAL_STATES.contains state

/-- The `MVP` row of `models/mvp.py` (the fields the pipeline core touches). -/
structure MVP where
  id : Nat
  name : String
  status : MVPState
  retry_count : Nat
  created_at : Nat
  updated_at : Nat
  total_token_usage : Nat
  total_cost_estimate : ℚ
  max_allowed_cost : ℚ
  execution_trace_id : Option String
  last_error_stage : Option String
deriving DecidableEq, Repr

/-- The `AgentRun` row of `models/agent_run.py` (the stage-attempt record). -/
structure AgentRun where
  mvp_id : Nat
  stage : String
  status : String
  attempt_number : Nat
  log : Option String
  started_at : Nat
  completed_at : Option Nat
  duration_ms : Option Nat
  stage_input_json : Option String
  stage_output_json : Option String
  llm_model : Option String
  token_usage : Option Nat
  cost_estimate : Option ℚ
deriving DecidableEq, Repr

/-- The exception taxonomy raised by the pipeline core:
`CostLimitExceededError` and `RuntimeLimitExceededError` of
`services/pipeline.py`, `StateTransitionError` of `exceptions.py`, and
`StageError` standing for the bare `Exception(stage_result.error)` a
failed stage raises. -/
inductive PipelineError where
  | CostLimitExceededError (current_cost max_cost : ℚ)
  | RuntimeLimitExceededError (current_runtime max_runtime : Nat)
  | StateTransitionError (from_state to_state : MVPState)
  | StageError (message : String)
deriving DecidableEq, Repr

/-- The `status_code` each exception class passes to `EidoException.__init__`. -/
def PipelineError.status_code : PipelineError → Nat
  | .CostLimitExceededError _ _ => 402
  | .RuntimeLimitExceededError _ _ => 408
  | .StateTransitionError _ _ => 400
  | .StageError _ => 500

/-- The `code` each exception class passes to `EidoException.__init__`. -/
def PipelineError.code : PipelineError → String
  | .CostLimitExceededError _ _ => ("COST_LIMIT_EXCEEDED")
  | .RuntimeLimitExceededError _ _ => ("RUNTIME_LIMIT_EXCEEDED")
  | .StateTransitionError _ _ => ("INVALID_STATE_TRANSITION")
  | .StageError _ => ("EIDO_ERROR")

/-- Discriminates the two guardrail exception classes caught by the first
`except` clause of `AutonomousPipeline.run` (`pipeline.py` line 113). -/
def isGuardrailError : PipelineError → Bool
  | .CostLimitExceededError _ _ => true
  | .RuntimeLimitExceededError _ _ => true
  | _ => false

/-- `AutonomousPipeline._transition_state` (`pipeline.py` lines 163-175):
validates against the transition table, then sets `status` and
`updated_at = utcnow()` and commits; `now` is the clock read. -/
def transition_state (mvp : MVP) (new_state : MVPState) (now : Nat) :
    Except PipelineError MVP :=
  if is_valid_transition mvp.status new_state then
    .ok { mvp with status := new_state, updated_at := now }
  else
    .error (.StateTransitionError mvp.status new_state)

/-- `AutonomousPipeline._check_cost_limit` (`pipeline.py` lines 283-301):
raises `CostLimitExceededError` when the accumulated
`total_cost_estimate` is `>=` `max_allowed_cost`.  (The fire-and-forget
alert task has no effect on pipeline state and is not modelled.) -/
def check_cost_limit (mvp : MVP) : Except PipelineError Unit :=
  if mvp.total_cost_estimate ≥ mvp.max_allowed_cost then
    .error (.CostLimitExceededError mvp.total_cost_estimate mvp.max_allowed_cost)
  else
    .ok ()

/-- `AutonomousPipeline._check_runtime_limit` (`pipeline.py` lines 303-312):
raises `RuntimeLimitExceededError` when the wall-clock seconds elapsed
since the run started are `>=` `config.MAX_TOTAL_RUNTIME`. -/
def check_runtime_limit (elapsed max_total_runtime : Nat) :
    Except PipelineError Unit :=
  if elapsed ≥ max_total_runtime then
    .error (.RuntimeLimitExceededError elapsed max_total_runtime)
  else
    .ok ()

/-- The structured result returned by the AI-runtime collaborator
(`StageResult` of `ai_runtime/ai_runtime_facade.py`). -/
structure StageResult where
  success : Bool
  stage_input_json : Option String
  stage_output_json : Option String
  llm_model : Option String
  token_usage : Nat
  cost_estimate : ℚ
  agent_logs : List String
  error : Option String
deriving DecidableEq, Repr

/-- What `await self.ai_runtime.execute_stage(...)` does on one call:
either returns a structured `StageResult` or throws. -/
inductive StageOutcome where
  | result (r : StageResult)
  | raise (message : String)
deriving DecidableEq, Repr

/-- The observable effect of one `AutonomousPipeline._execute_stage` call:
the exception it propagates (if any), the unit-of-work row as committed,
the stage-attempt record it created (if it got that far), and whether the
AI-runtime collaborator was invoked. -/
structure StageExecResult where
  error : Option PipelineError
  mvp : MVP
  record : Option AgentRun
  runtime_invoked : Bool
deriving DecidableEq, Repr

/-- The `except Exception` block of `_execute_stage` (`pipeline.py` lines
260-281): force-close the attempt record as failed if it is still
"running", set `last_error_stage`, transition to `failure_state` when one
is defined, and re-raise (a `StateTransitionError` from the failure
transition replaces the original exception). -/
def stage_except_handler (mvp : MVP) (run1 : AgentRun) (stage_name : String)
    (failure_state : Option MVPState) (e : PipelineError) (msg : String)
    (t0 t1 : Nat) : StageExecResult :=
  let closed :=
    if run1.status == ("running") then
      ({ run1 with
          status := ("failed"),
          completed_at := some t1,
          duration_ms := some (t1 - t0),
          log := some (("Stage ") ++ stage_name ++ (" failed: ") ++ msg) },
       { mvp with last_error_stage := some stage_name })
    else
      (run1, mvp)
  match failure_state with
  | some fs =>
    match transition_state closed.2 fs t1 with
    | .ok mvp3 => ⟨some e, mvp3, some closed.1, true⟩
    | .error e2 => ⟨some e2, closed.2, some closed.1, true⟩
  | none => ⟨some e, closed.2, some closed.1, true⟩

/-- `AutonomousPipeline._execute_stage` (`pipeline.py` lines 177-281).
`elapsed` is the wall-clock seconds since the run started at the runtime
pre-check; `t0` is the clock read when the attempt record is created
(`started_at`) and `t1` the read when it is closed (`completed_at`);
`outcome` is what the AI-runtime collaborator does. -/
def execute_stage (mvp : MVP) (stage_name : String) (target_state : MVPState)
    (failure_state : Option MVPState) (elapsed max_total_runtime : Nat)
    (t0 t1 : Nat) (outcome : StageOutcome) : StageExecResult :=
  match check_runtime_limit elapsed max_total_runtime with
  | .error e => ⟨some e, mvp, none, false⟩
  | .ok _ =>
  match check_cost_limit mvp with
  | .error e => ⟨some e, mvp, none, false⟩
  | .ok _ =>
  match transition_state mvp target_state t0 with
  | .error e => ⟨some e, mvp, none, false⟩
  | .ok mvp1 =>
    let run0 : AgentRun :=
      { mvp_id := mvp1.id
        stage := stage_name
        status := ("running")
        attempt_number := mvp1.retry_count + 1
        log := none
        started_at := t0
        completed_at := none
        duration_ms := none
        stage_input_json := none
        stage_output_json := none
        llm_model := none
        token_usage := some 0
        cost_estimate := some 0 }
    match outcome with
    | .raise msg =>
      stage_except_handler mvp1 run0 stage_name failure_state
        (.StageError msg) msg t0 t1
    | .result r =>
      if r.success then
        let run1 :=
          { run0 with
              status := ("completed")
              stage_input_json := r.stage_input_json
              stage_output_json := r.stage_output_json
              llm_model := r.llm_model
              token_usage := some r.token_usage
              cost_estimate := some r.cost_estimate
              log := some (String.intercalate ("\n") r.agent_logs)
              completed_at := some t1
              duration_ms := some (t1 - t0) }
        let mvp2 :=
          { mvp1 with
              total_token_usage := mvp1.total_token_usage + r.token_usage
              total_cost_estimate := mvp1.total_cost_estimate + r.cost_estimate }
        ⟨none, mvp2, some run1, true⟩
      else
        let run1 :=
          { run0 with
              status := ("failed")
              log := r.error
              completed_at := some t1
              duration_ms := some (t1 - t0) }
        let mvp2 := { mvp1 with last_error_stage := some stage_name }
        stage_except_handler mvp2 run1 stage_name failure_state
          (.StageError (r.error.getD (""))) (r.error.getD ("")) t0 t1

/-- One entry of the fixed stage sequence driven by `AutonomousPipeline.run`
(`pipeline.py` lines 92-96 and 314-336): stage name, target state, and the
optional failure state. -/
structure StageSpec where
  name : String
  target : MVPState
  failure : Option MVPState
deriving DecidableEq, Repr

/-- The fixed stage sequence of `AutonomousPipeline.run`. -/
def pipelineStages : List StageSpec :=
  [⟨("ideation"), .IDEATING, none⟩,
   ⟨("architecture"), .ARCHITECTING, none⟩,
   ⟨("building"), .BUILDING, some .BUILD_FAILED⟩,
   ⟨("deployment"), .DEPLOYING, some .DEPLOY_FAILED⟩,
   ⟨("tokenization"), .TOKENIZING, none⟩]

/-- The environment one stage execution observes: the elapsed wall-clock
seconds at its runtime pre-check, the clock reads at record creation and
close, and the AI-runtime collaborator's behaviour. -/
structure StageInput where
  elapsed : Nat
  started_at : Nat
  completed_at : Nat
  outcome : StageOutcome

/-- The sequential stage loop inside the `try` block of
`AutonomousPipeline.run` (`pipeline.py` lines 92-96): runs the stages in
order, stopping at the first exception; returns the propagated exception
(if any), the committed unit-of-work row, and the stage-attempt records
created. `input i` is the environment of the i-th stage execution. -/
def runStages (input : Nat → StageInput) (max_total_runtime : Nat) :
    MVP → List StageSpec → Nat →
    Option PipelineError × MVP × List AgentRun
  | mvp, [], _ => (none, mvp, [])
  | mvp, spec :: rest, i =>
    let inp := input i
    let r := execute_stage mvp spec.name spec.target spec.failure
      inp.elapsed max_total_runtime inp.started_at inp.completed_at inp.outcome
    match r.error with
    | some e => (some e, r.mvp, r.record.toList)
    | none =>
      let rec' := runStages input max_total_runtime r.mvp rest (i + 1)
      (rec'.1, rec'.2.1, r.record.toList ++ rec'.2.2)

/-- The second `except` clause of `AutonomousPipeline.run` (`pipeline.py`
lines 136-158), entered for any exception that is not a guardrail
violation: if the unit is non-terminal, increment `retry_count`; at or
above `config.MAX_AGENT_RETRIES` transition to FAILED, otherwise commit
the incremented count and park.  A `StateTransitionError` from the FAILED
transition replaces the original exception, and nothing is committed in
that case (the session closes without commit). -/
def handle_generic (mvp : MVP) (e : PipelineError) (max_agent_retries : Nat)
    (now : Nat) : Option PipelineError × MVP :=
  if is_terminal_state mvp.status then
    (some e, mvp)
  else
    let rc := mvp.retry_count + 1
    if rc ≥ max_agent_retries then
      match transition_state { mvp with retry_count := rc } .FAILED now with
      | .ok mvp2 => (some e, mvp2)
      | .error e2 => (some e2, mvp)
    else
      (some e, { mvp with retry_count := rc })

/-- The first `except` clause of `AutonomousPipeline.run` (`pipeline.py`
lines 113-134), entered for a guardrail violation: set
`last_error_stage = "cost_or_runtime_limit"` and transition to FAILED
(the transition commits both changes); a `StateTransitionError` from the
transition replaces the original exception and nothing is committed. -/
def handle_guardrail (mvp : MVP) (e : PipelineError) (now : Nat) :
    Option PipelineError × MVP :=
  match transition_state
      { mvp with last_error_stage := some ("cost_or_runtime_limit") }
      .FAILED now with
  | .ok mvp2 => (some e, mvp2)
  | .error e2 => (some e2, mvp)

/-- `AutonomousPipeline.run` (`pipeline.py` lines 71-161): the stage loop,
the final transition to COMPLETED, and the two exception handlers.
`final_now` is the clock read used by the terminal transition. -/
def run (mvp : MVP) (input : Nat → StageInput)
    (max_total_runtime max_agent_retries : Nat) (final_now : Nat) :
    Option PipelineError × MVP × List AgentRun :=
  let body := runStages input max_total_runtime mvp pipelineStages 0
  match body.1 with
  | none =>
    match transition_state body.2.1 .COMPLETED final_now with
    | .ok mvp2 => (none, mvp2, body.2.2)
    | .error e =>
      let h := handle_generic body.2.1 e max_agent_retries final_now
      (h.1, h.2, body.2.2)
  | some e =>
    if isGuardrailError e then
      let h := handle_guardrail body.2.1 e final_now
      (h.1, h.2, body.2.2)
    else
      let h := handle_generic body.2.1 e max_agent_retries final_now
      (h.1, h.2, body.2.2)

/-- `resume_incomplete_pipelines` (`pipeline.py` lines 339-364): of all
persisted units, exactly those whose status is in `NON_TERMINAL_STATES`
get a new `AutonomousPipeline(mvp.id).run()` started as a background
task; the function returns the selected units in order. -/
def resume_incomplete_pipelines (mvps : List MVP) : List MVP :=
  mvps.filter (fun m => is_non_terminal_state m.status)

/-- One entry of the pricing table: cost per 1K tokens for input and
output. -/
structure ModelRate where
  input : ℚ
  output : ℚ
deriving DecidableEq, Repr

/-- The default rate `{"input": 0.01, "output": 0.03}` used by
`LLMRouter.estimate_cost` for a model matching no pricing-table key. -/
def DEFAULT_RATE : ModelRate := ⟨1/100, 3/100⟩

/-- `LLMRouter.MODEL_COSTS` (`llm_router.py` lines 115-141), in dict
insertion order. -/
def MODEL_COSTS : List (String × ModelRate) :=
  [(("gpt-4"), ⟨3/100, 6/100⟩),
   (("gpt-4-turbo"), ⟨1/100, 3/100⟩),
   (("gpt-4o"), ⟨5/1000, 15/1000⟩),
   (("gpt-4o-mini"), ⟨15/100000, 6/10000⟩),
   (("gpt-3.5-turbo"), ⟨5/10000, 15/10000⟩),
   (("claude-3-opus"), ⟨15/1000, 75/1000⟩),
   (("claude-3-sonnet-20240229"), ⟨3/1000, 15/1000⟩),
   (("claude-3-haiku-20240307"), ⟨25/100000, 125/100000⟩),
   (("llama-3.3-70b-versatile"), ⟨0, 0⟩),
   (("llama-3.1-70b-versatile"), ⟨0, 0⟩),
   (("llama-3.1-8b-instant"), ⟨0, 0⟩),
   (("gemma2-9b-it"), ⟨0, 0⟩),
   (("mixtral-8x7b-32768"), ⟨0, 0⟩),
   (("llama3-70b"), ⟨7/10000, 9/10000⟩),
   (("llama3-8b"), ⟨1/10000, 1/10000⟩),
   (("llama-3.1-70b"), ⟨6/10000, 6/10000⟩),
   (("gemini-1.5-flash"), ⟨0, 0⟩),
   (("gemini-1.5-pro"), ⟨0, 0⟩),
   (("gemini-2.0-flash"), ⟨0, 0⟩),
   (("ollama"), ⟨0, 0⟩)]

/-- Python's `model.lower()`: lowercase each character. -/
def py_lower (s : String) : String := String.mk (s.data.map Char.toLower)

/-- Python's `needle in hay` substring test on strings. -/
def substr_in (needle hay : String) : Bool :=
  (List.range (hay.toList.length + 1)).any
    (fun i => needle.toList.isPrefixOf (hay.toList.drop i))

/-- `LLMRouter.estimate_cost` (`llm_router.py` lines 164-174): start from
the exact-key dict lookup with the explicit default, then override with
the first pricing-table key (in insertion order) that is a substring of
the lowercased model name; cost is
`(input_tokens/1000)*input + (output_tokens/1000)*output`. -/
def estimate_cost (model : String) (input_tokens output_tokens : Nat) : ℚ :=
  let costs0 :=
    match MODEL_COSTS.find? (fun kv => kv.1 == model) with
    | some kv => kv.2
    | none => DEFAULT_RATE
  let costs :=
    match MODEL_COSTS.find? (fun kv => substr_in kv.1 (py_lower model)) with
    | some kv => kv.2
    | none => costs0
  (input_tokens : ℚ) / 1000 * costs.input
    + (output_tokens : ℚ) / 1000 * costs.output

/-- The rate `estimate_cost` effectively uses: the first pricing-table key
(in insertion order) that is a substring of the lowercased model name, or
the explicit default when no key matches. -/
def resolve_rate (model : String) : ModelRate :=
  match MODEL_COSTS.find? (fun kv => substr_in kv.1 (py_lower model)) with
  | some kv => kv.2
  | none => DEFAULT_RATE

/-- Modelled from the spec: the spec sentence resolves the rate by the
longest pricing-table key that matches the model name, with the explicit
default rate for unknown models; this definition follows those words, to
be compared with `estimate_cost` as written in the source. -/
def estimate_cost_longest_key (model : String)
    (input_tokens output_tokens : Nat) : ℚ :=
  let matching := MODEL_COSTS.filter (fun kv => substr_in kv.1 (py_lower model))
  let costs :=
    match matching.foldl
        (fun acc kv =>
          match acc with
          | none => some kv
          | some best =>
            if best.1.length < kv.1.length then some kv else some best)
        none with
    | some kv => kv.2
    | none => DEFAULT_RATE
  (input_tokens : ℚ) / 1000 * costs.input
    + (output_tokens : ℚ) / 1000 * costs.output

/-- The default of `config.MAX_LLM_RETRIES` (`config/settings.py`). -/
def MAX_LLM_RETRIES : Nat := 3

/-- Python's `x or default` on an optional integer: `None` and `0` are
falsy and fall back to the default. -/
def py_or_opt (x : Option Nat) (default : Nat) : Nat :=
  match x with
  | none => default
  | some n => if n = 0 then default else n

/-- The attempt bound `max_attempts = max_retries or config.MAX_LLM_RETRIES`
computed by `LLMRouter.execute_llm_call` (`llm_router.py` line 187). -/
def max_attempts_for (max_retries : Option Nat) : Nat :=
  py_or_opt max_retries MAX_LLM_RETRIES

/-- The number of loop iterations `for attempt in range(1, max_attempts+1)`
of `execute_llm_call` performs, given which attempt numbers would
succeed: the loop stops at the first success and otherwise exhausts the
bound (and raises `LLMRouterError`). -/
def attempts_performed (succeeds : Nat → Bool) (max_attempts : Nat) : Nat :=
  match (List.range' 1 max_attempts).find? succeeds with
  | some i => i
  | none => max_attempts

/-! ## General lemmas -/

theorem is_valid_transition_iff (f t : MVPState) :
    is_valid_transition f t = true ↔ t ∈ VALID_TRANSITIONS f := by
  simp [is_valid_transition, List.elem_iff]

/-! ## Concrete records used by witnesses and counterexamples -/

/-- A freshly created unit of work with the default cost ceiling. -/
def mvpC5 : MVP :=
  { id := 5, name := ("epsilon"), status := .CREATED, retry_count := 0,
    created_at := 0, updated_at := 0, total_token_usage := 0,
    total_cost_estimate := 0, max_allowed_cost := 10,
    execution_trace_id := none, last_error_stage := none }

/-- A unit of work persisted mid-pipeline in BUILDING. -/
def mvpC8a : MVP :=
  { id := 81, name := ("a"), status := .BUILDING, retry_count := 0,
    created_at := 0, updated_at := 0, total_token_usage := 0,
    total_cost_estimate := 0, max_allowed_cost := 10,
    execution_trace_id := none, last_error_stage := none }

/-- A unit of work persisted in DEPLOY_FAILED. -/
def mvpC8b : MVP := { mvpC8a with id := 82, name := ("b"), status := .DEPLOY_FAILED }

/-- A unit of work persisted in the terminal COMPLETED state. -/
def mvpC8c : MVP := { mvpC8a with id := 83, name := ("c"), status := .COMPLETED }

/-! ## Claims -/

/-- C10: the transition relation is irreflexive — for every state `S`,
`is_valid_transition(S, S)` is false, so attempting to transition a unit
to its current status always raises `StateTransitionError`. -/
theorem C10_transitions_irreflexive :
    (∀ s : MVPState, is_valid_transition s s = false) ∧
    ∀ (mvp : MVP) (now : Nat),
      transition_state mvp mvp.status now
        = .error (.StateTransitionError mvp.status mvp.status) := by
  refine ⟨fun s => by cases s <;> decide, fun mvp now => ?_⟩
  have h : is_valid_transition mvp.status mvp.status = false := by
    cases mvp.status <;> decide
  simp [transition_state, h]

/-- C5: `transition(unit, to)` raises `StateTransitionError` exactly when
`to` is absent from the transition-table entry for the unit's current
state, and otherwise sets the unit's status to the new state and advances
`updated_at` monotonically (the clock read `now` being at least the
previous `updated_at`). -/
theorem C5_transition_exact (mvp : MVP) (to_state : MVPState) (now : Nat)
    (h : mvp.updated_at ≤ now) :
    (transition_state mvp to_state now
        = .error (.StateTransitionError mvp.status to_state)
      ↔ to_state ∉ VALID_TRANSITIONS mvp.status) ∧
    ∀ mvp2, transition_state mvp to_state now = .ok mvp2 →
      mvp2.status = to_state ∧ mvp2.updated_at = now ∧
      mvp.updated_at ≤ mvp2.updated_at := by
  constructor
  · rw [← is_valid_transition_iff]
    unfold transition_state
    by_cases hv : is_valid_transition mvp.status to_state = true
    · simp [hv]
    · simp [hv]
  · intro mvp2 hok
    unfold transition_state at hok
    by_cases hv : is_valid_transition mvp.status to_state = true
    · simp only [hv, if_true, Except.ok.injEq] at hok
      subst hok
      exact ⟨rfl, rfl, h⟩
    · simp [hv] at hok

/-- Witness for C5 at a concrete input: a freshly created unit moved to
IDEATING at time 5. -/
theorem C5_transition_exact_witness :
    mvpC5.updated_at ≤ 5 ∧
    ((transition_state mvpC5 .IDEATING 5
        = .error (.StateTransitionError mvpC5.status .IDEATING)
      ↔ MVPState.IDEATING ∉ VALID_TRANSITIONS mvpC5.status) ∧
    ∀ mvp2, transition_state mvpC5 .IDEATING 5 = .ok mvp2 →
      mvp2.status = .IDEATING ∧ mvp2.updated_at = 5 ∧
      mvpC5.updated_at ≤ mvp2.updated_at) :=
  ⟨by decide, C5_transition_exact mvpC5 .IDEATING 5 (by decide)⟩

/-- C8: the recovery scanner selects for resumption exactly the units
whose status is in the non-terminal set: of units in
{BUILDING, DEPLOY_FAILED, COMPLETED} it resumes exactly the first two and
leaves the third untouched, and with zero eligible units it selects
nothing. -/
theorem C8_recovery_selection :
    (∀ (mvps : List MVP) (m : MVP),
        m ∈ resume_incomplete_pipelines mvps ↔
          m ∈ mvps ∧ is_non_terminal_state m.status = true) ∧
    resume_incomplete_pipelines [mvpC8a, mvpC8b, mvpC8c] = [mvpC8a, mvpC8b] ∧
    mvpC8c ∉ resume_incomplete_pipelines [mvpC8a, mvpC8b, mvpC8c] ∧
    resume_incomplete_pipelines [] = [] := by
  refine ⟨fun mvps m => ?_, by with_unfolding_all decide,
    by with_unfolding_all decide, rfl⟩
  simp [resume_incomplete_pipelines, List.mem_filter]

/-- C9: calling `execute_llm_call` with `max_retries = 0` does not perform
zero attempts: the bound `max_retries or config.MAX_LLM_RETRIES` treats 0
as falsy, so the loop runs the configured default number of attempts
(at least one); a genuinely zero bound would run the loop body zero
times. -/
theorem C9_zero_max_retries_falls_back :
    max_attempts_for (some 0) = MAX_LLM_RETRIES ∧
    MAX_LLM_RETRIES = 3 ∧
    (∀ succeeds : Nat → Bool,
      1 ≤ attempts_performed succeeds (max_attempts_for (some 0))) ∧
    (∀ succeeds : Nat → Bool, attempts_performed succeeds 0 = 0) := by
  refine ⟨rfl, rfl, fun succeeds => ?_, fun succeeds => rfl⟩
  unfold attempts_performed
  cases hf : (List.range' 1 (max_attempts_for (some 0))).find? succeeds with
  | none => decide
  | some i =>
    have hm := List.mem_of_find?_eq_some hf
    have := (List.mem_range'_1.mp hm).1
    simpa using this

theorem model_costs_keys_self_match :
    ∀ kv ∈ MODEL_COSTS, substr_in kv.1 (py_lower kv.1) = true := by decide

/-- C4 counterexample: the code resolves the rate by the FIRST matching
pricing-table key in insertion order, not the longest one.  For the model
name gpt-4-turbo the table's gpt-4-turbo entry (0.01/0.03 per 1K) is the
longest match, but the code picks the earlier gpt-4 entry (0.03/0.06), so
at 1000 input and 1000 output tokens the code charges 0.09 where the
longest-key rule of the claim gives 0.04. -/
theorem C4_counterexample_first_not_longest :
    estimate_cost ("gpt-4-turbo") 1000 1000 = 9/100 ∧
    estimate_cost_longest_key ("gpt-4-turbo") 1000 1000 = 1/25 ∧
    estimate_cost ("gpt-4-turbo") 1000 1000
      ≠ estimate_cost_longest_key ("gpt-4-turbo") 1000 1000 := by
  refine ⟨?_, ?_, ?_⟩ <;> with_unfolding_all decide

/-- C4 (amended): the LLM call cost equals
(input_tokens/1000)×input_rate + (output_tokens/1000)×output_rate, where
the rate pair is resolved by the FIRST key of the pricing table (in its
insertion order) that is a substring of the lowercased model name, and a
model matching no key gets the explicit default rate. -/
theorem C4_amended_cost_formula :
    (∀ (model : String) (input_tokens output_tokens : Nat),
      estimate_cost model input_tokens output_tokens =
        (input_tokens : ℚ) / 1000 * (resolve_rate model).input
          + (output_tokens : ℚ) / 1000 * (resolve_rate model).output) ∧
    ∀ model : String,
      (∀ kv ∈ MODEL_COSTS, substr_in kv.1 (py_lower model) = false) →
      resolve_rate model = DEFAULT_RATE := by
  constructor
  · intro model input_tokens output_tokens
    unfold estimate_cost resolve_rate
    cases hf : MODEL_COSTS.find? (fun kv => substr_in kv.1 (py_lower model)) with
    | some kv => simp [hf]
    | none =>
      simp only [hf]
      cases hg : MODEL_COSTS.find? (fun kv => kv.1 == model) with
      | none => simp [hg]
      | some kv =>
        exfalso
        have hmem := List.mem_of_find?_eq_some hg
        have hbeq := List.find?_some hg
        have hkey : kv.1 = model := by simpa using hbeq
        have hself := model_costs_keys_self_match kv hmem
        have hnone := List.find?_eq_none.mp hf kv hmem
        rw [hkey] at hself
        rw [hkey] at hnone
        simp [hself] at hnone
  · intro model hno
    unfold resolve_rate
    have : MODEL_COSTS.find? (fun kv => substr_in kv.1 (py_lower model)) = none :=
      List.find?_eq_none.mpr (by simpa using hno)
    simp [this]

/-- A successful stage result reporting a given cost. -/
def successResult (cost : ℚ) : StageResult :=
  { success := true, stage_input_json := none, stage_output_json := none,
    llm_model := some ("llama-3.1-8b-instant"), token_usage := 100,
    cost_estimate := cost, agent_logs := [], error := none }

/-- The end-to-end overshoot scenario unit: created with
`max_allowed_cost = 5.0` and nothing spent yet. -/
def mvpC3 : MVP :=
  { id := 3, name := ("gamma"), status := .CREATED, retry_count := 0,
    created_at := 0, updated_at := 0, total_token_usage := 0,
    total_cost_estimate := 0, max_allowed_cost := 5,
    execution_trace_id := none, last_error_stage := none }

/-- The end-to-end overshoot scenario stage environments: ideation and
architecture each cost 1.0, building costs 10.0. -/
def inputC3 : Nat → StageInput := fun i =>
  { elapsed := i, started_at := 10 * i, completed_at := 10 * i + 5,
    outcome := .result (successResult (if i = 2 then 10 else 1)) }

/-- C3: the cost guardrail is a pre-check with ≥ semantics evaluated
before each stage: when the accumulated total already equals or exceeds
the ceiling, the stage raises `CostLimitExceededError` before the
AI-runtime collaborator is invoked, before any state change and before
any attempt record is created; totals accumulate only after a stage
completes, so a single stage may overshoot the ceiling — concretely, with
a ceiling of 5.0 the building pre-check passes at an accumulated 2.0,
building adds 10.0, and the deployment pre-check then raises at
12.0 ≥ 5.0. -/
theorem C3_cost_precheck (mvp : MVP) (stage_name : String)
    (target_state : MVPState) (failure_state : Option MVPState)
    (elapsed max_total_runtime t0 t1 : Nat) (outcome : StageOutcome)
    (hrt : elapsed < max_total_runtime)
    (hcost : mvp.max_allowed_cost ≤ mvp.total_cost_estimate) :
    execute_stage mvp stage_name target_state failure_state elapsed
        max_total_runtime t0 t1 outcome =
      ⟨some (.CostLimitExceededError mvp.total_cost_estimate mvp.max_allowed_cost),
        mvp, none, false⟩ ∧
    (runStages inputC3 3600 mvpC3 (pipelineStages.take 2) 0).2.1.total_cost_estimate
        = 2 ∧
    ¬ ((2:ℚ) ≥ 5) ∧
    (runStages inputC3 3600 mvpC3 pipelineStages 0).1
        = some (.CostLimitExceededError 12 5) ∧
    (runStages inputC3 3600 mvpC3 pipelineStages 0).2.1.total_cost_estimate = 12 ∧
    (runStages inputC3 3600 mvpC3 pipelineStages 0).2.2.map (fun rec => rec.stage)
        = [("ideation"), ("architecture"), ("building")] := by
  refine ⟨?_, by with_unfolding_all decide, by with_unfolding_all decide,
    by with_unfolding_all decide, by with_unfolding_all decide,
    by with_unfolding_all decide⟩
  unfold execute_stage check_runtime_limit check_cost_limit
  rw [if_neg (by omega), if_pos hcost]

/-- Witness for C3 at a concrete input: a unit whose accumulated cost 7.0
already exceeds its ceiling 5.0, attempting the deployment stage. -/
theorem C3_cost_precheck_witness :
    (0:Nat) < 3600 ∧
    ({ mvpC3 with total_cost_estimate := 7 } : MVP).max_allowed_cost
      ≤ ({ mvpC3 with total_cost_estimate := 7 } : MVP).total_cost_estimate ∧
    (execute_stage { mvpC3 with total_cost_estimate := 7 } ("deployment")
        .DEPLOYING (some .DEPLOY_FAILED) 0 3600 100 105
        (.result (successResult 1)) =
      ⟨some (.CostLimitExceededError
          ({ mvpC3 with total_cost_estimate := 7 } : MVP).total_cost_estimate
          ({ mvpC3 with total_cost_estimate := 7 } : MVP).max_allowed_cost),
        { mvpC3 with total_cost_estimate := 7 }, none, false⟩ ∧
      (runStages inputC3 3600 mvpC3 (pipelineStages.take 2) 0).2.1.total_cost_estimate
          = 2 ∧
      ¬ ((2:ℚ) ≥ 5) ∧
      (runStages inputC3 3600 mvpC3 pipelineStages 0).1
          = some (.CostLimitExceededError 12 5) ∧
      (runStages inputC3 3600 mvpC3 pipelineStages 0).2.1.total_cost_estimate = 12 ∧
      (runStages inputC3 3600 mvpC3 pipelineStages 0).2.2.map (fun rec => rec.stage)
          = [("ideation"), ("architecture"), ("building")]) :=
  ⟨by decide, by with_unfolding_all decide,
    C3_cost_precheck { mvpC3 with total_cost_estimate := 7 } ("deployment")
      .DEPLOYING (some .DEPLOY_FAILED) 0 3600 100 105
      (.result (successResult 1)) (by decide) (by with_unfolding_all decide)⟩

theorem stage_except_handler_closes (mvp : MVP) (run1 : AgentRun)
    (stage_name : String) (failure_state : Option MVPState)
    (e : PipelineError) (msg : String) (t0 t1 : Nat)
    (hst : run1.stage = stage_name) (hstart : run1.started_at = t0)
    (hpre : run1.status = ("running") ∨
      ((run1.status = ("completed") ∨ run1.status = ("failed")) ∧
        run1.completed_at = some t1 ∧ run1.duration_ms = some (t1 - t0))) :
    ∃ rec, (stage_except_handler mvp run1 stage_name failure_state e msg t0 t1).record
        = some rec ∧
      (rec.status = ("completed") ∨ rec.status = ("failed")) ∧
      rec.stage = stage_name ∧ rec.started_at = t0 ∧
      rec.completed_at = some t1 ∧ rec.duration_ms = some (t1 - t0) := by
  unfold stage_except_handler
  by_cases hr : run1.status = ("running")
  · have hb : (run1.status == ("running")) = true := by simp [hr]
    simp only [hb, if_true]
    repeat' split
    all_goals exact ⟨_, rfl, Or.inr rfl, hst, hstart, rfl, rfl⟩
  · obtain ⟨hstat, hcomp, hdur⟩ := hpre.resolve_left fun h => absurd h hr
    have hb : (run1.status == ("running")) = false := by simp [hr]
    simp only [hb, Bool.false_eq_true, if_false]
    repeat' split
    all_goals exact ⟨run1, rfl, hstat, hst, hstart, hcomp, hdur⟩

/-- C7: every stage attempt that reaches the AI-runtime collaborator has
created exactly one stage-attempt record, and on every exit from stage
execution the record is closed — status completed or failed, never left
"running" — with `started_at ≤ completed_at` and `duration_ms` equal to
their difference in milliseconds. -/
theorem C7_attempt_record_closed (mvp : MVP) (stage_name : String)
    (target_state : MVPState) (failure_state : Option MVPState)
    (elapsed max_total_runtime t0 t1 : Nat) (outcome : StageOutcome)
    (h01 : t0 ≤ t1) :
    (execute_stage mvp stage_name target_state failure_state elapsed
        max_total_runtime t0 t1 outcome).runtime_invoked = true →
    ∃ rec, (execute_stage mvp stage_name target_state failure_state elapsed
        max_total_runtime t0 t1 outcome).record = some rec ∧
      (rec.status = ("completed") ∨ rec.status = ("failed")) ∧
      rec.stage = stage_name ∧
      rec.started_at = t0 ∧
      rec.completed_at = some t1 ∧
      rec.started_at ≤ t1 ∧
      rec.duration_ms = some (t1 - t0) := by
  unfold execute_stage
  cases check_runtime_limit elapsed max_total_runtime with
  | error e => intro hinv; exact absurd hinv (by simp)
  | ok u =>
  cases check_cost_limit mvp with
  | error e => intro hinv; exact absurd hinv (by simp)
  | ok u2 =>
  cases transition_state mvp target_state t0 with
  | error e => intro hinv; exact absurd hinv (by simp)
  | ok mvp1 =>
  intro hinv
  cases outcome with
  | raise msg =>
    obtain ⟨rec, hrec, hprops⟩ := stage_except_handler_closes mvp1
      { mvp_id := mvp1.id, stage := stage_name, status := ("running"),
        attempt_number := mvp1.retry_count + 1, log := none, started_at := t0,
        completed_at := none, duration_ms := none, stage_input_json := none,
        stage_output_json := none, llm_model := none, token_usage := some 0,
        cost_estimate := some 0 } stage_name failure_state (.StageError msg)
      msg t0 t1 rfl rfl (Or.inl rfl)
    exact ⟨rec, hrec, hprops.1, hprops.2.1, hprops.2.2.1, hprops.2.2.2.1,
      by rw [hprops.2.2.1]; exact h01, hprops.2.2.2.2⟩
  | result res =>
    dsimp only
    by_cases hs : res.success = true
    · rw [if_pos hs]
      exact ⟨_, rfl, Or.inl rfl, rfl, rfl, rfl, h01, rfl⟩
    · rw [if_neg hs]
      obtain ⟨rec, hrec, hprops⟩ := stage_except_handler_closes
        { mvp1 with last_error_stage := some stage_name }
        { mvp_id := mvp1.id, stage := stage_name, status := ("failed"),
          attempt_number := mvp1.retry_count + 1, log := res.error,
          started_at := t0, completed_at := some t1,
          duration_ms := some (t1 - t0), stage_input_json := none,
          stage_output_json := none, llm_model := none, token_usage := some 0,
          cost_estimate := some 0 } stage_name failure_state
        (.StageError (res.error.getD (""))) (res.error.getD ("")) t0 t1 rfl rfl
        (Or.inr ⟨Or.inr rfl, rfl, rfl⟩)
      exact ⟨rec, hrec, hprops.1, hprops.2.1, hprops.2.2.1, hprops.2.2.2.1,
        by rw [hprops.2.2.1]; exact h01, hprops.2.2.2.2⟩

/-- Witness for C7 at a concrete input: a fresh unit executing the
ideation stage successfully, with clock reads 100 and 105. -/
theorem C7_attempt_record_closed_witness :
    (100:Nat) ≤ 105 ∧
    ((execute_stage mvpC5 ("ideation") .IDEATING none 0 3600 100 105
        (.result (successResult 1))).runtime_invoked = true →
    ∃ rec, (execute_stage mvpC5 ("ideation") .IDEATING none 0 3600 100 105
        (.result (successResult 1))).record = some rec ∧
      (rec.status = ("completed") ∨ rec.status = ("failed")) ∧
      rec.stage = ("ideation") ∧
      rec.started_at = 100 ∧
      rec.completed_at = some 105 ∧
      rec.started_at ≤ 105 ∧
      rec.duration_ms = some (105 - 100)) :=
  ⟨by decide, C7_attempt_record_closed mvpC5 ("ideation") .IDEATING none 0 3600
    100 105 (.result (successResult 1)) (by decide)⟩

/-- The C1 exhibit unit: created with a 5.0 ceiling. -/
def mvpC1 : MVP :=
  { id := 11, name := ("delta"), status := .CREATED, retry_count := 0,
    created_at := 0, updated_at := 0, total_token_usage := 0,
    total_cost_estimate := 0, max_allowed_cost := 5,
    execution_trace_id := none, last_error_stage := none }

/-- The C1 exhibit stage environments: ideation and architecture cost 1.0
each, building costs 10.0, so the deployment pre-check trips the cost
guardrail while the unit is in BUILDING. -/
def inputC1 : Nat → StageInput := fun i =>
  { elapsed := i, started_at := 10 * i, completed_at := 10 * i + 5,
    outcome := .result (successResult (if i = 2 then 10 else 1)) }

/-- C1 (exhibit of the failing input): with a 5.0 ceiling and stage costs
1.0, 1.0, 10.0, the deployment pre-check raises `CostLimitExceededError`
(status code 402, a guardrail violation, and `retry_count` is never
touched) while the unit is in BUILDING — but the guardrail handler's
transition to FAILED is invalid from BUILDING, so the run propagates
`StateTransitionError` and the unit never reaches the terminal FAILED
state the claim requires. -/
theorem C1_guardrail_cannot_reach_failed :
    (runStages inputC1 3600 mvpC1 pipelineStages 0).1
        = some (.CostLimitExceededError 12 5) ∧
    (PipelineError.CostLimitExceededError 12 5).status_code = 402 ∧
    isGuardrailError (.CostLimitExceededError 12 5) = true ∧
    is_valid_transition .BUILDING .FAILED = false ∧
    (run mvpC1 inputC1 3600 3 999).1
        = some (.StateTransitionError .BUILDING .FAILED) ∧
    (run mvpC1 inputC1 3600 3 999).2.1.status = .BUILDING ∧
    (run mvpC1 inputC1 3600 3 999).2.1.status ≠ .FAILED ∧
    (run mvpC1 inputC1 3600 3 999).2.1.retry_count = mvpC1.retry_count := by
  refine ⟨?_, ?_, ?_, ?_, ?_, ?_, ?_, ?_⟩ <;> with_unfolding_all decide

/-- The C2 exhibit unit: persisted mid-pipeline in BUILDING, as the
recovery scanner would find it after a crash. -/
def mvpC2 : MVP :=
  { id := 12, name := ("zeta"), status := .BUILDING, retry_count := 0,
    created_at := 0, updated_at := 0, total_token_usage := 0,
    total_cost_estimate := 0, max_allowed_cost := 10,
    execution_trace_id := none, last_error_stage := none }

/-- Benign stage environments for the C2 exhibit: every stage would
succeed at cost 1.0 if reached. -/
def inputC2 : Nat → StageInput := fun i =>
  { elapsed := i, started_at := 10 * i, completed_at := 10 * i + 5,
    outcome := .result (successResult 1) }

/-- C2 (exhibit of the failing input): the recovery scanner selects a unit
persisted as BUILDING, but the resumed `run` does not re-execute the
building stage: it restarts at the first stage (ideation), whose
transition BUILDING → IDEATING is invalid, so the resumed run raises
`StateTransitionError`, executes no stage at all (no attempt records),
bumps `retry_count`, and leaves the unit parked in BUILDING. -/
theorem C2_resume_restarts_at_first_stage :
    mvpC2.status = .BUILDING ∧
    resume_incomplete_pipelines [mvpC2] = [mvpC2] ∧
    (run mvpC2 inputC2 3600 3 999).1
        = some (.StateTransitionError .BUILDING .IDEATING) ∧
    (run mvpC2 inputC2 3600 3 999).2.2 = [] ∧
    (run mvpC2 inputC2 3600 3 999).2.1.status = .BUILDING ∧
    (run mvpC2 inputC2 3600 3 999).2.1.retry_count = mvpC2.retry_count + 1 := by
  refine ⟨?_, ?_, ?_, ?_, ?_, ?_⟩ <;> with_unfolding_all decide

/-- One stage of the fixed sequence is well-chained from state `s`: the
transition to its target is valid, and after an expected failure the
resulting state (the failure state if one is defined, the target
otherwise) can still transition to FAILED. -/
def stageOk (s : MVPState) (spec : StageSpec) : Bool :=
  is_valid_transition s spec.target &&
  (match spec.failure with
   | some fs =>
     is_valid_transition spec.target fs && is_valid_transition fs .FAILED
   | none => is_valid_transition spec.target .FAILED)

/-- A stage sequence is well-chained from state `s`. -/
def chainOk : MVPState → List StageSpec → Bool
  | _, [] => true
  | s, spec :: rest => stageOk s spec && chainOk spec.target rest

/-- The state an all-successful pass through the stage sequence ends in. -/
def lastTarget : MVPState → List StageSpec → MVPState
  | s, [] => s
  | _, spec :: rest => lastTarget spec.target rest

theorem valid_to_FAILED_not_terminal (s : MVPState)
    (h : is_valid_transition s .FAILED = true) :
    is_terminal_state s = false := by
  cases s <;> first | rfl | (exact absurd h (by decide))

theorem stage_except_handler_chain (mvp : MVP) (run1 : AgentRun)
    (stage_name : String) (failure_state : Option MVPState)
    (e : PipelineError) (msg : String) (t0 t1 : Nat)
    (hfs : match failure_state with
      | some fs => is_valid_transition mvp.status fs = true ∧
          is_valid_transition fs .FAILED = true
      | none => is_valid_transition mvp.status .FAILED = true) :
    (stage_except_handler mvp run1 stage_name failure_state e msg t0 t1).error
        = some e ∧
    is_valid_transition
      (stage_except_handler mvp run1 stage_name failure_state e msg t0 t1).mvp.status
      .FAILED = true ∧
    (stage_except_handler mvp run1 stage_name failure_state e msg t0 t1).mvp.retry_count
      = mvp.retry_count := by
  unfold stage_except_handler
  by_cases hr : (run1.status == ("running")) = true
  · simp only [hr, if_true]
    cases failure_state with
    | none => exact ⟨rfl, hfs, rfl⟩
    | some fs =>
      obtain ⟨hv, hvf⟩ := hfs
      unfold transition_state
      dsimp only
      rw [if_pos hv]
      exact ⟨rfl, hvf, rfl⟩
  · simp only [hr, Bool.false_eq_true, if_false]
    cases failure_state with
    | none => exact ⟨rfl, hfs, rfl⟩
    | some fs =>
      obtain ⟨hv, hvf⟩ := hfs
      unfold transition_state
      dsimp only
      rw [if_pos hv]
      exact ⟨rfl, hvf, rfl⟩

theorem execute_stage_chain (mvp : MVP) (spec : StageSpec)
    (elapsed max_total_runtime t0 t1 : Nat) (outcome : StageOutcome)
    (hok : stageOk mvp.status spec = true) :
    ((execute_stage mvp spec.name spec.target spec.failure elapsed
        max_total_runtime t0 t1 outcome).error = none →
      (execute_stage mvp spec.name spec.target spec.failure elapsed
        max_total_runtime t0 t1 outcome).mvp.status = spec.target ∧
      (execute_stage mvp spec.name spec.target spec.failure elapsed
        max_total_runtime t0 t1 outcome).mvp.retry_count = mvp.retry_count) ∧
    (∀ e, (execute_stage mvp spec.name spec.target spec.failure elapsed
        max_total_runtime t0 t1 outcome).error = some e →
      isGuardrailError e = false →
      is_valid_transition (execute_stage mvp spec.name spec.target spec.failure
        elapsed max_total_runtime t0 t1 outcome).mvp.status .FAILED = true ∧
      (execute_stage mvp spec.name spec.target spec.failure elapsed
        max_total_runtime t0 t1 outcome).mvp.retry_count = mvp.retry_count) := by
  have hok' := Bool.and_eq_true_iff.mp hok
  have htgt : is_valid_transition mvp.status spec.target = true := hok'.1
  have hfs := hok'.2
  unfold execute_stage check_runtime_limit check_cost_limit
  by_cases h1 : elapsed ≥ max_total_runtime
  · rw [if_pos h1]
    refine ⟨fun h => absurd h (by simp), fun e he hng => ?_⟩
    simp only [Option.some.injEq] at he
    rw [← he] at hng
    exact absurd hng (by simp [isGuardrailError])
  · rw [if_neg h1]
    by_cases h2 : mvp.total_cost_estimate ≥ mvp.max_allowed_cost
    · rw [if_pos h2]
      refine ⟨fun h => absurd h (by simp), fun e he hng => ?_⟩
      simp only [Option.some.injEq] at he
      rw [← he] at hng
      exact absurd hng (by simp [isGuardrailError])
    · rw [if_neg h2]
      unfold transition_state
      rw [if_pos htgt]
      cases outcome with
      | raise msg =>
        have hh := stage_except_handler_chain
          { mvp with status := spec.target, updated_at := t0 }
          { mvp_id := mvp.id, stage := spec.name, status := ("running"),
            attempt_number := mvp.retry_count + 1, log := none,
            started_at := t0, completed_at := none, duration_ms := none,
            stage_input_json := none, stage_output_json := none,
            llm_model := none, token_usage := some 0, cost_estimate := some 0 }
          spec.name spec.failure (.StageError msg) msg t0 t1
          (by cases hf : spec.failure with
            | none => rw [hf] at hfs; simpa using hfs
            | some fs =>
              rw [hf] at hfs
              exact ⟨(Bool.and_eq_true_iff.mp hfs).1, (Bool.and_eq_true_iff.mp hfs).2⟩)
        refine ⟨fun h => ?_, fun e he hng => ?_⟩
        · rw [hh.1] at h; cases h
        · rw [hh.1] at he
          simp only [Option.some.injEq] at he
          exact ⟨hh.2.1, hh.2.2⟩
      | result res =>
        by_cases hs : res.success = true
        · dsimp only
          rw [if_pos hs]
          exact ⟨fun _ => ⟨rfl, rfl⟩, fun e he _ => absurd he (by simp)⟩
        · dsimp only
          rw [if_neg hs]
          have hh := stage_except_handler_chain
            { mvp with status := spec.target, updated_at := t0, last_error_stage := some spec.name }
            { mvp_id := mvp.id, stage := spec.name, status := ("failed"),
              attempt_number := mvp.retry_count + 1, log := res.error,
              started_at := t0, completed_at := some t1,
              duration_ms := some (t1 - t0), stage_input_json := none,
              stage_output_json := none, llm_model := none,
              token_usage := some 0, cost_estimate := some 0 }
            spec.name spec.failure (.StageError (res.error.getD ("")))
            (res.error.getD ("")) t0 t1
            (by cases hf : spec.failure with
              | none => rw [hf] at hfs; simpa using hfs
              | some fs =>
                rw [hf] at hfs
                exact ⟨(Bool.and_eq_true_iff.mp hfs).1, (Bool.and_eq_true_iff.mp hfs).2⟩)
          refine ⟨fun h => ?_, fun e he hng => ?_⟩
          · rw [hh.1] at h; cases h
          · rw [hh.1] at he
            simp only [Option.some.injEq] at he
            exact ⟨hh.2.1, hh.2.2⟩

theorem runStages_chain (input : Nat → StageInput) (max_total_runtime : Nat) :
    ∀ (stages : List StageSpec) (mvp : MVP) (i : Nat),
      chainOk mvp.status stages = true →
      ((runStages input max_total_runtime mvp stages i).1 = none →
        (runStages input max_total_runtime mvp stages i).2.1.status
            = lastTarget mvp.status stages ∧
        (runStages input max_total_runtime mvp stages i).2.1.retry_count
            = mvp.retry_count) ∧
      (∀ e, (runStages input max_total_runtime mvp stages i).1 = some e →
        isGuardrailError e = false →
        is_valid_transition
            (runStages input max_total_runtime mvp stages i).2.1.status
            .FAILED = true ∧
        (runStages input max_total_runtime mvp stages i).2.1.retry_count
            = mvp.retry_count)
  | [], mvp, i, hok => by
    unfold runStages
    exact ⟨fun _ => ⟨rfl, rfl⟩, fun e he => absurd he (by simp)⟩
  | spec :: rest, mvp, i, hok => by
    have hok' := Bool.and_eq_true_iff.mp hok
    have hstage := execute_stage_chain mvp spec (input i).elapsed
      max_total_runtime (input i).started_at (input i).completed_at
      (input i).outcome hok'.1
    unfold runStages
    dsimp only
    cases herr : (execute_stage mvp spec.name spec.target spec.failure
        (input i).elapsed max_total_runtime (input i).started_at
        (input i).completed_at (input i).outcome).error with
    | some e0 =>
      refine ⟨fun h => absurd h (by simp), fun e he hng => ?_⟩
      simp only [Option.some.injEq] at he
      rw [← he] at hng
      have := hstage.2 e0 herr hng
      exact he ▸ this
    | none =>
      obtain ⟨hst, hrc⟩ := hstage.1 herr
      have hok2 : chainOk (execute_stage mvp spec.name spec.target spec.failure
          (input i).elapsed max_total_runtime (input i).started_at
          (input i).completed_at (input i).outcome).mvp.status rest = true := by
        rw [hst]; exact hok'.2
      have ih := runStages_chain input max_total_runtime rest _ (i + 1) hok2
      refine ⟨fun h => ?_, fun e he hng => ?_⟩
      · obtain ⟨ih1, ih2⟩ := ih.1 h
        refine ⟨?_, by rw [ih2, hrc]⟩
        rw [ih1, hst]
        rfl
      · obtain ⟨ih1, ih2⟩ := ih.2 e he hng
        exact ⟨ih1, by rw [ih2, hrc]⟩

theorem execute_stage_record_stage (mvp : MVP) (stage_name : String)
    (target_state : MVPState) (failure_state : Option MVPState)
    (elapsed max_total_runtime t0 t1 : Nat) (outcome : StageOutcome) :
    ∀ rec, (execute_stage mvp stage_name target_state failure_state elapsed
        max_total_runtime t0 t1 outcome).record = some rec →
      rec.stage = stage_name := by
  intro rec
  unfold execute_stage stage_except_handler transition_state
    check_runtime_limit check_cost_limit
  dsimp only
  repeat' split
  all_goals intro h
  all_goals simp_all
  all_goals (subst h; rfl)

theorem runStages_record_names (input : Nat → StageInput)
    (max_total_runtime : Nat) :
    ∀ (stages : List StageSpec) (mvp : MVP) (i : Nat),
      ((runStages input max_total_runtime mvp stages i).2.2.map
          (fun rec => rec.stage)).Sublist
        (stages.map (fun spec => spec.name))
  | [], mvp, i => by
    unfold runStages
    simp
  | spec :: rest, mvp, i => by
    unfold runStages
    dsimp only
    cases herr : (execute_stage mvp spec.name spec.target spec.failure
        (input i).elapsed max_total_runtime (input i).started_at
        (input i).completed_at (input i).outcome).error with
    | some e0 =>
      cases hrec : (execute_stage mvp spec.name spec.target spec.failure
          (input i).elapsed max_total_runtime (input i).started_at
          (input i).completed_at (input i).outcome).record with
      | none => simp
      | some rec =>
        have hname := execute_stage_record_stage mvp spec.name spec.target
          spec.failure (input i).elapsed max_total_runtime (input i).started_at
          (input i).completed_at (input i).outcome rec hrec
        simp only [Option.toList_some, List.map_cons, List.map_nil, hname,
          List.map]
        exact (List.nil_sublist _).cons₂ spec.name
    | none =>
      have ih := runStages_record_names input max_total_runtime rest
        (execute_stage mvp spec.name spec.target spec.failure
          (input i).elapsed max_total_runtime (input i).started_at
          (input i).completed_at (input i).outcome).mvp (i + 1)
      cases hrec : (execute_stage mvp spec.name spec.target spec.failure
          (input i).elapsed max_total_runtime (input i).started_at
          (input i).completed_at (input i).outcome).record with
      | none =>
        simp only [Option.toList_none, List.nil_append, List.map_cons]
        exact ih.cons spec.name
      | some rec =>
        have hname := execute_stage_record_stage mvp spec.name spec.target
          spec.failure (input i).elapsed max_total_runtime (input i).started_at
          (input i).completed_at (input i).outcome rec hrec
        simp only [Option.toList_some, List.cons_append, List.nil_append,
          List.map_cons, hname]
        exact ih.cons₂ spec.name

/-- C6: on any exception raised inside a pipeline run (started on a
freshly created unit) that is not a guardrail violation, the orchestrator
re-raises it and increments `retry_count` by exactly one; if the
incremented count reaches the configured maximum the unit is transitioned
to FAILED, and otherwise the unit stays parked in the non-terminal state
the stage loop left it in; in either case no stage is re-attempted
in-process — the attempt records are one per stage tried, in stage
order. -/
theorem C6_nonguardrail_retry_bookkeeping (mvp0 : MVP)
    (input : Nat → StageInput)
    (max_total_runtime max_agent_retries final_now : Nat) (e : PipelineError)
    (h0 : mvp0.status = .CREATED)
    (herr : (runStages input max_total_runtime mvp0 pipelineStages 0).1 = some e)
    (hng : isGuardrailError e = false) :
    (run mvp0 input max_total_runtime max_agent_retries final_now).1 = some e ∧
    (run mvp0 input max_total_runtime max_agent_retries final_now).2.1.retry_count
        = mvp0.retry_count + 1 ∧
    (mvp0.retry_count + 1 ≥ max_agent_retries →
      (run mvp0 input max_total_runtime max_agent_retries final_now).2.1.status
        = .FAILED) ∧
    (mvp0.retry_count + 1 < max_agent_retries →
      (run mvp0 input max_total_runtime max_agent_retries final_now).2.1.status
        = (runStages input max_total_runtime mvp0 pipelineStages 0).2.1.status ∧
      is_terminal_state
        (run mvp0 input max_total_runtime max_agent_retries final_now).2.1.status
        = false) ∧
    ((run mvp0 input max_total_runtime max_agent_retries final_now).2.2.map
        (fun rec => rec.stage)).Sublist
      (pipelineStages.map (fun spec => spec.name)) := by
  have hchain : chainOk mvp0.status pipelineStages = true := by rw [h0]; decide
  have hvr := (runStages_chain input max_total_runtime pipelineStages mvp0 0
    hchain).2 e herr hng
  have hvalid := hvr.1
  have hretry := hvr.2
  have hterm := valid_to_FAILED_not_terminal _ hvalid
  have hnames := runStages_record_names input max_total_runtime pipelineStages
    mvp0 0
  by_cases hge : mvp0.retry_count + 1 ≥ max_agent_retries
  · have hrun : run mvp0 input max_total_runtime max_agent_retries final_now
        = (some e,
          { (runStages input max_total_runtime mvp0 pipelineStages 0).2.1 with
              retry_count := mvp0.retry_count + 1,
              status := .FAILED, updated_at := final_now },
          (runStages input max_total_runtime mvp0 pipelineStages 0).2.2) := by
      unfold run handle_generic transition_state
      dsimp only
      rw [herr]
      try dsimp only
      rw [if_neg (by simp [hng])]
      rw [hterm]
      try dsimp only
      rw [if_neg (by simp)]
      rw [hretry]
      rw [if_pos hge]
      try dsimp only
      rw [if_pos hvalid]
    rw [hrun]
    refine ⟨rfl, rfl, fun _ => rfl, fun hlt => ?_, hnames⟩
    exact absurd hge (by omega)
  · have hrun : run mvp0 input max_total_runtime max_agent_retries final_now
        = (some e,
          { (runStages input max_total_runtime mvp0 pipelineStages 0).2.1 with
              retry_count := mvp0.retry_count + 1 },
          (runStages input max_total_runtime mvp0 pipelineStages 0).2.2) := by
      unfold run handle_generic
      dsimp only
      rw [herr]
      try dsimp only
      rw [if_neg (by simp [hng])]
      rw [hterm]
      try dsimp only
      rw [if_neg (by simp)]
      rw [hretry]
      rw [if_neg hge]
    rw [hrun]
    refine ⟨rfl, rfl, fun hge2 => absurd hge2 hge,
      fun _ => ⟨rfl, ?_⟩, hnames⟩
    exact hterm

/-- The C6 witness unit: freshly created, nothing spent. -/
def mvpC6 : MVP :=
  { id := 6, name := ("eta"), status := .CREATED, retry_count := 0,
    created_at := 0, updated_at := 0, total_token_usage := 0,
    total_cost_estimate := 0, max_allowed_cost := 10,
    execution_trace_id := none, last_error_stage := none }

/-- The C6 witness stage environments: the AI-runtime collaborator throws
on every stage. -/
def inputC6 : Nat → StageInput := fun i =>
  { elapsed := 0, started_at := i, completed_at := i + 1,
    outcome := .raise ("boom") }

/-- Witness for C6 at a concrete input: the ideation stage throws, the
exception is not a guardrail violation, and the run books exactly one
retry and parks the unit. -/
theorem C6_nonguardrail_retry_bookkeeping_witness :
    mvpC6.status = .CREATED ∧
    (runStages inputC6 3600 mvpC6 pipelineStages 0).1
        = some (.StageError ("boom")) ∧
    isGuardrailError (.StageError ("boom")) = false ∧
    ((run mvpC6 inputC6 3600 3 999).1 = some (.StageError ("boom")) ∧
     (run mvpC6 inputC6 3600 3 999).2.1.retry_count = mvpC6.retry_count + 1 ∧
     (mvpC6.retry_count + 1 ≥ 3 →
       (run mvpC6 inputC6 3600 3 999).2.1.status = .FAILED) ∧
     (mvpC6.retry_count + 1 < 3 →
       (run mvpC6 inputC6 3600 3 999).2.1.status
           = (runStages inputC6 3600 mvpC6 pipelineStages 0).2.1.status ∧
       is_terminal_state (run mvpC6 inputC6 3600 3 999).2.1.status = false) ∧
     ((run mvpC6 inputC6 3600 3 999).2.2.map (fun rec => rec.stage)).Sublist
       (pipelineStages.map (fun spec => spec.name))) :=
  ⟨rfl, by with_unfolding_all decide, by decide,
    C6_nonguardrail_retry_bookkeeping mvpC6 inputC6 3600 3 999
      (.StageError ("boom")) rfl (by with_unfolding_all decide) (by decide)⟩

end Eido
